import Mathlib

/-!
Shallow embedding of the structural-interface-conformance module
(`src/interfaced/__init__.py`) and proofs about its conformance algorithm.

Modelling conventions, justified against the Python semantics the source relies on:

* `inspect.Signature` objects are embedded as `FuncSig` (ordered parameters with
  optional annotations plus a return annotation); their equality is structural,
  as in Python. Annotations are opaque tokens, so a forward-declared (string)
  annotation is a distinct token from a direct type reference, matching the
  module's documented behaviour.
* `PropertySignature` (the class in the source) defines no `__eq__`, so Python
  compares its instances by object identity, and every call of
  `universal_signature` on a property constructs a brand-new instance. Object
  identity is embedded as a `pid : Nat` field drawn from a fresh counter that is
  threaded through every construction, so descriptors built by distinct
  extraction calls always carry distinct `pid`s.
* `signature(None)` raises `TypeError`; `PropertySignature.__init__` calls
  `signature` on `fget`, then `fset`, then `fdel`, so extraction of a property
  with a missing accessor raises. Fallible steps return `Except PyError`.
* `dir(cls)` is modelled as the sorted, deduplicated list of member names of the
  class and all its transitive bases, and `getattr(cls, n)` as lookup in the
  class's own dict first and then depth-first, left-to-right through the
  declared bases (this agrees with Python's MRO on the diamond-free hierarchies
  considered here). Members contributed identically to every class by the
  `type` metaclass itself (such as `mro`) are omitted: they occur with the same
  descriptor on both sides of every comparison and cannot change any verdict.
* `x in someList` in Python compares `x` with each element using `==`; across
  the object kinds occurring here this is structural equality on signatures,
  identity on `PropertySignature` instances, value equality on plain values,
  and `False` between objects of different kinds. `Descriptor` derives
  `DecidableEq` accordingly, and the comparison of a descriptor against a raw
  attribute object (which `implements` performs on `default_attrs`) is the
  separate function `descEqMember`.
* Class objects compare by identity; classes in the examples are distinct
  structurally whenever they are distinct objects, so `in cls.__bases__` is
  embedded with structural equality `PyClass.beqb`.
-/

namespace Interfaced

/-- One parameter of an invocable signature: its name and optional annotation
token (Python signature equality is sensitive to parameter names). -/
structure Param where
  pname : String
  ann : Option String
deriving DecidableEq, Repr

/-- Embedding of an `inspect.Signature`: ordered parameters plus the return
annotation. Equality is structural, as for `inspect.Signature`. -/
structure FuncSig where
  params : List Param
  ret : Option String
deriving DecidableEq, Repr

/-- A class attribute as returned by `getattr`: a function (optionally carrying
the `__defaultmethod__` tag set by the `default` decorator, and optionally
raising `TypeError` when invoked — the behaviour of the injected
`default_initializer`), a property with optional getter/setter/deleter, or a
plain non-callable value (payload modelled as a `Nat`, with the tag flag
recording the presence of the `__defaultmethod__` attribute). -/
inductive Member where
  | func (sig : FuncSig) (isDefault : Bool) (raisesOnCall : Bool)
  | prop (fget : Option FuncSig) (fset : Option FuncSig) (fdel : Option FuncSig)
  | value (v : Nat) (isDefault : Bool)
deriving DecidableEq, Repr

/-- The Python exceptions this module can raise. -/
inductive PyError where
  | typeError
  | attributeError
deriving DecidableEq, Repr

/-- A class object: its name, its immediate declared bases (`__bases__`), and
its own class dict (`__dict__`), in declaration order. -/
inductive PyClass where
  | mk (nm : String) (basesL : List PyClass) (dct : List (String × Member))

/-- The immediate declared bases of a class (`cls.__bases__`). -/
def PyClass.basesL : PyClass → List PyClass
  | .mk _ b _ => b

/-- The class's own dict (`cls.__dict__`), dunder entries included. -/
def PyClass.dct : PyClass → List (String × Member)
  | .mk _ _ d => d

mutual

/-- Object identity of class objects (classes are compared with `is`-like
equality by `in cls.__bases__`; structurally distinct embeddings stand for
distinct class objects). -/
def PyClass.beqb : PyClass → PyClass → Bool
  | .mk n1 b1 d1, .mk n2 b2 d2 =>
      n1 == n2 && PyClass.beqbList b1 b2 && decide (d1 = d2)

/-- Pointwise `PyClass.beqb` on lists of classes. -/
def PyClass.beqbList : List PyClass → List PyClass → Bool
  | [], [] => true
  | x :: xs, y :: ys => PyClass.beqb x y && PyClass.beqbList xs ys
  | _, _ => false

end

mutual

/-- Model of `getattr(cls, name)`: the class's own dict first, then the declared bases,
depth-first and left-to-right (Python's MRO on diamond-free hierarchies). -/
def PyClass.attrLookup : PyClass → String → Option Member
  | .mk _ bs d, name =>
    match d.lookup name with
    | some m => some m
    | none => PyClass.attrLookupList bs name

/-- Attribute lookup across a list of base classes, first hit wins. -/
def PyClass.attrLookupList : List PyClass → String → Option Member
  | [], _ => none
  | b :: rest, name =>
    match PyClass.attrLookup b name with
    | some m => some m
    | none => PyClass.attrLookupList rest name

end

mutual

/-- All member names declared on the class or any of its transitive bases
(the name set `dir` draws from), with multiplicity. -/
def PyClass.allNames : PyClass → List String
  | .mk _ bs d => d.map Prod.fst ++ PyClass.allNamesList bs

/-- Map of `PyClass.allNames` over a list of classes, concatenated. -/
def PyClass.allNamesList : List PyClass → List String
  | [] => []
  | b :: rest => PyClass.allNames b ++ PyClass.allNamesList rest

end

/-- Remove duplicate names, keeping the first occurrence. -/
def dedupNames : List String → List String
  | [] => []
  | x :: xs => x :: (dedupNames xs).filter (fun y => y != x)

/-- Prefix test on character lists (code-point equality), the computable core
of the string `startswith`/`endswith` tests below. -/
def charListIsPre : List Char → List Char → Bool
  | [], _ => true
  | _ :: _, [] => false
  | a :: as, b :: bs => (a.toNat == b.toNat) && charListIsPre as bs

/-- Lexicographic code-point comparison of character lists (Python's string
ordering, used by the sorted `dir` listing). -/
def charListLe : List Char → List Char → Bool
  | [], _ => true
  | _ :: _, [] => false
  | a :: as, b :: bs =>
    if a.toNat < b.toNat then true
    else if b.toNat < a.toNat then false
    else charListLe as bs

/-- Insert a name into an already sorted list of names. -/
def insertSorted (s : String) : List String → List String
  | [] => [s]
  | x :: xs =>
    if charListLe s.data x.data then s :: x :: xs else x :: insertSorted s xs

/-- Insertion sort on names (Python's `dir` returns names sorted). -/
def sortNames : List String → List String
  | [] => []
  | x :: xs => insertSorted x (sortNames xs)

/-- Model of `dir(cls)`: the sorted, duplicate-free list of member names of the class
and all its bases. -/
def dirList (c : PyClass) : List String :=
  sortNames (dedupNames c.allNames)

/-- Source `is_dunder`: the name starts and ends with a double underscore
(`methodname.startswith` and `endswith`, realized on the name's character
list). -/
def is_dunder (methodname : String) : Bool :=
  charListIsPre "__".data methodname.data
    && charListIsPre "__".data.reverse methodname.data.reverse

/-- Source `get_non_dunder_attrs`:
`[getattr(cls, i) for i in dir(cls) if not is_dunder(i)]`. -/
def get_non_dunder_attrs (c : PyClass) : List Member :=
  ((dirList c).filter (fun n => ! is_dunder n)).filterMap c.attrLookup

/-- Model of `hasattr(i, "__defaultmethod__")`: whether the attribute object carries the
tag set by the `default` decorator (a property instance accepts no attributes,
so it never carries the tag). -/
def Member.hasDefaultTag : Member → Bool
  | .func _ d _ => d
  | .prop _ _ _ => false
  | .value _ d => d

/-- The `default` decorator from the source: sets `__defaultmethod__` on the
member (attribute assignment on a function or tag-capable value; a property
instance rejects attribute assignment, so it is returned unchanged here and the
degenerate case never occurs in the source's usage, which decorates functions).
-/
def default (m : Member) : Member :=
  match m with
  | .func s _ r => .func s true r
  | .value v _ => .value v true
  | .prop g s d => .prop g s d

/-- Embedding of the source's `PropertySignature` class: the compound signature
built from a property's getter, setter and deleter. The class defines no
`__eq__`, so Python compares instances by object identity; `pid` embeds that
identity and is fresh for every constructed instance. (The `self.property`
back-reference is omitted: identity comparison consults no field at all.) -/
structure PropertySignature where
  pid : Nat
  fget : FuncSig
  fset : FuncSig
  fdel : FuncSig
deriving DecidableEq, Repr

/-- The result of `universal_signature`: an `inspect.Signature` for a callable,
a `PropertySignature` for a property, or the raw object itself for anything
else. Derived equality implements Python `==` on this universe: structural on
signatures, identity (`pid`) on `PropertySignature` instances, value equality
on plain values, `False` across kinds. -/
inductive Descriptor where
  | funcSig (s : FuncSig)
  | propSig (p : PropertySignature)
  | value (v : Nat)
deriving DecidableEq, Repr

/-- Source `universal_signature`, with `fresh` supplying the object
identity of a newly constructed `PropertySignature`. A property is described by
`PropertySignature(target)`, whose `__init__` calls `signature` on `fget`,
`fset` and `fdel` in that order — `signature(None)` raises `TypeError`, so a
property missing any of the three accessors makes extraction raise. A callable
yields its `inspect.Signature`; anything else is its own descriptor. -/
def universal_signature (m : Member) (fresh : Nat) :
    Except PyError (Descriptor × Nat) :=
  match m with
  | .prop g s d =>
    match g with
    | none => .error .typeError
    | some gs =>
      match s with
      | none => .error .typeError
      | some ss =>
        match d with
        | none => .error .typeError
        | some ds => .ok (.propSig ⟨fresh, gs, ss, ds⟩, fresh + 1)
  | .func s _ _ => .ok (.funcSig s, fresh)
  | .value v _ => .ok (.value v, fresh)

/-- Evaluation of `[universal_signature(i) for i in attrs]`, threading the identity counter
and propagating the first raised exception. -/
def extractAll : List Member → Nat → Except PyError (List Descriptor × Nat)
  | [], f => .ok ([], f)
  | m :: ms, f =>
    match universal_signature m f with
    | .error e => .error e
    | .ok (d, f1) =>
      match extractAll ms f1 with
      | .error e => .error e
      | .ok (ds, f2) => .ok (d :: ds, f2)

/-- Embedding of the source's `ClassSignature`: the class, its non-dunder
attribute objects, their descriptors (order-correlated, names discarded —
exactly as in the source), and the attribute objects carrying the default tag.
-/
structure ClassSignature where
  cls : PyClass
  attrs : List Member
  signatures : List Descriptor
  default_attrs : List Member

/-- Source `ClassSignature.__init__`: enumerate the non-dunder attributes, extract
each descriptor (threading fresh `PropertySignature` identities), and record
the default-tagged attributes. -/
def mkClassSignature (c : PyClass) (fresh : Nat) :
    Except PyError (ClassSignature × Nat) :=
  match extractAll (get_non_dunder_attrs c) fresh with
  | .error e => .error e
  | .ok (sigs, f) =>
    .ok (⟨c, get_non_dunder_attrs c, sigs,
          (get_non_dunder_attrs c).filter Member.hasDefaultTag⟩, f)

/-- Source `ClassSignature.equals`: the two descriptor lists are identical
element-for-element. -/
def ClassSignature.equals (self target : ClassSignature) : Bool :=
  decide (self.signatures = target.signatures)

/-- Source `ClassSignature.bases`: `target.cls in self.cls.__bases__` (identity
comparison of class objects against the immediate declared bases). -/
def ClassSignature.bases (self target : ClassSignature) : Bool :=
  self.cls.basesL.any (fun b => PyClass.beqb b target.cls)

/-- Source `ClassSignature.contains`: every descriptor in the other signature's list
occurs in this signature's list (`sig in self.signatures`); names play no role
because the source's lists hold bare descriptors. -/
def ClassSignature.contains (self other : ClassSignature) : Bool :=
  other.signatures.all (fun s => decide (s ∈ self.signatures))

/-- Python `==` between a descriptor and a raw attribute object, as performed
by `isig in interface.default_attrs`: an `inspect.Signature` equals no
function, property or plain value; a `PropertySignature` equals only itself and
is never a class attribute; an opaque descriptor is the attribute object, so it
equals a plain-value attribute with the same payload (attribute presence does
not enter `==`). -/
def descEqMember : Descriptor → Member → Bool
  | .value v, .value w _ => v == w
  | _, _ => false

/-- Source `ClassSignature.implements`: if this signature's class does
not list the interface's class among its immediate bases, fall back to
`contains`; otherwise every interface descriptor must occur in this signature's
descriptor list or compare equal (`==`) to one of the interface's raw
default-tagged attribute objects. -/
def ClassSignature.implements (self interface : ClassSignature) : Bool :=
  if ! self.bases interface then self.contains interface
  else interface.signatures.all (fun isig =>
    decide (isig ∈ self.signatures)
      || interface.default_attrs.any (fun a => descEqMember isig a))

/-- The conformance entry `ClassSignature(subclass).implements(cls)`: both
signatures are built afresh, in this order, within one call, so their
`PropertySignature` identities are disjoint. -/
def implementsCheck (candidate interface : PyClass) : Except PyError Bool :=
  match mkClassSignature candidate 0 with
  | .error e => .error e
  | .ok (cSig, f) =>
    match mkClassSignature interface f with
    | .error e => .error e
    | .ok (iSig, _) => .ok (cSig.implements iSig)

/-- The module-level `bases` helper:
`ClassSignature(cls).bases(parent)` (the argument is converted to a
`ClassSignature` as well). -/
def bases_fn (cls parent : PyClass) : Except PyError Bool :=
  match mkClassSignature cls 0 with
  | .error e => .error e
  | .ok (cs, f) =>
    match mkClassSignature parent f with
    | .error e => .error e
    | .ok (ps, _) => .ok (cs.bases ps)

/-- Call of `ClassSignature(s).contains(t)` with the argument converted from a type, as
the source's `contains` does on a `type` argument. -/
def containsCheck (s t : PyClass) : Except PyError Bool :=
  match mkClassSignature s 0 with
  | .error e => .error e
  | .ok (ss, f) =>
    match mkClassSignature t f with
    | .error e => .error e
    | .ok (ts, _) => .ok (ss.contains ts)

/-- The descriptor list of `ClassSignature(c)` (projection used to state
concrete facts about a class's extracted signature list). -/
def signaturesOf (c : PyClass) : Except PyError (List Descriptor) :=
  match mkClassSignature c 0 with
  | .error e => .error e
  | .ok (s, _) => .ok s.signatures

/-- The signature of the injected `default_initializer(*args, **kwargs)`. -/
def default_initializer_sig : FuncSig :=
  ⟨[⟨"args", none⟩, ⟨"kwargs", none⟩], none⟩

/-- The `default_initializer` closure injected by `Interface.__new__`: a plain
function that raises `TypeError` when invoked. -/
def default_initializer : Member :=
  .func default_initializer_sig false true

/-- Source `Interface.__new__`: if the class body supplies no `__init__`, store the
raising `default_initializer` under `__init__` in the new class's dict. -/
def Interface_new (name : String) (basesL : List PyClass)
    (dct : List (String × Member)) : PyClass :=
  if dct.any (fun p => p.1 == "__init__") then .mk name basesL dct
  else .mk name basesL (dct ++ [("__init__", default_initializer)])

/-- Instantiating a class: `type.__call__` allocates and then invokes the
`__init__` found by attribute lookup; an `__init__` whose body raises
`TypeError` (the injected initializer) aborts construction, anything else
completes it. -/
def construct (c : PyClass) : Except PyError Unit :=
  match c.attrLookup "__init__" with
  | some (.func _ _ true) => .error .typeError
  | _ => .ok ()

/-- Source `Interface.__subclasscheck__`: when the interface's `__bases__` does not
have exactly one element, the source evaluates
`super(cls).__subclasscheck__(subclass)` — attribute access on an *unbound*
super object, which raises `AttributeError`; otherwise the structural check
`ClassSignature(subclass).implements(cls)` runs. -/
def subclasscheck (cls subclass : PyClass) : Except PyError Bool :=
  if cls.basesL.length ≠ 1 then .error .attributeError
  else implementsCheck subclass cls

/-! Concrete classes used to settle the claims and to mirror the repository's
test suite. -/

/-- The `self` parameter, unannotated. -/
def selfP : Param := ⟨"self", none⟩

/-- A parameter `a : int`. -/
def aIntP : Param := ⟨"a", some "int"⟩

/-- The root class `object` (its members are all dunders, so its contribution
to any non-dunder enumeration is empty). -/
def objectC : PyClass := .mk "object" [] []

/-- Signature `(self, a : int) -> int`. -/
def sigFooI : FuncSig := ⟨[selfP, aIntP], some "int"⟩

/-- Signature `(self, a : int) -> Self`. -/
def sigBazI : FuncSig := ⟨[selfP, aIntP], some "Self"⟩

/-- Signature `(self) -> None` (an override that changes the shape). -/
def sigBazAlt : FuncSig := ⟨[selfP], some "None"⟩

/-- Signature `(self) -> int`. -/
def sigM : FuncSig := ⟨[selfP], some "int"⟩

/-- Signature `(self)` with no return annotation (a plain initializer). -/
def initSig : FuncSig := ⟨[selfP], none⟩

/-- Interface with required `foo` and default-tagged `baz`. -/
def c1Iface : PyClass :=
  Interface_new "I1" [objectC]
    [("foo", .func sigFooI false false),
     ("baz", default (.func sigBazI false false))]

/-- Candidate declaring `c1Iface` as its immediate parent, overriding the
required `foo` identically and the default `baz` with a different signature. -/
def c1Cand : PyClass :=
  Interface_new "C1" [c1Iface]
    [("foo", .func sigFooI false false),
     ("baz", .func sigBazAlt false false)]

/-- Signature `(self, x : int) -> int`. -/
def c2Sig : FuncSig := ⟨[selfP, ⟨"x", some "int"⟩], some "int"⟩

/-- Class with the member named `a` of signature `c2Sig`. -/
def c2S : PyClass := .mk "S2" [] [("a", .func c2Sig false false)]

/-- Class with the member named `b` of the same signature `c2Sig`. -/
def c2T : PyClass := .mk "T2" [] [("b", .func c2Sig false false)]

/-- First parent of the multi-based interface. -/
def c3A : PyClass := .mk "A3" [] []

/-- Second parent of the multi-based interface. -/
def c3B : PyClass := .mk "B3" [] []

/-- Interface declaring two immediate parents. -/
def c3Iface : PyClass :=
  Interface_new "I3" [c3A, c3B] [("m", .func sigM false false)]

/-- Candidate that independently defines every member of `c3Iface`. -/
def c3Cand : PyClass := .mk "C3" [] [("m", .func sigM false false)]

/-- Interface whose class body defines its own `__init__`. -/
def c4Iface : PyClass :=
  Interface_new "I4" [objectC]
    [("__init__", .func initSig false false), ("m", .func sigM false false)]

/-- Getter signature `(self) -> int`. -/
def gSig : FuncSig := ⟨[selfP], some "int"⟩

/-- Setter signature `(self, v : int)`. -/
def sSig : FuncSig := ⟨[selfP, ⟨"v", some "int"⟩], none⟩

/-- Deleter signature `(self)`. -/
def dSig : FuncSig := ⟨[selfP], none⟩

/-- A property with getter, setter and deleter all present. -/
def propFull : Member := .prop (some gSig) (some sSig) (some dSig)

/-- Interface with a single property member `p`. -/
def c5Iface : PyClass := Interface_new "I5" [objectC] [("p", propFull)]

/-- Candidate defining a property member `p` with identical getter, setter and
deleter signatures (indeed the identical attribute object). -/
def c5Cand : PyClass := .mk "C5" [] [("p", propFull)]

/-- Interface with required `foo` and default-tagged `baz` (for the
non-declaring-candidate claim). -/
def c7Iface : PyClass :=
  Interface_new "I7" [objectC]
    [("foo", .func sigFooI false false),
     ("baz", default (.func sigBazI false false))]

/-- Candidate with no declared parent: it matches `foo`, has no member named
`baz`, but has a member `qux` whose signature equals `baz`'s. -/
def c7Cand : PyClass :=
  .mk "C7" []
    [("foo", .func sigFooI false false),
     ("qux", .func sigBazI false false)]

/-- A plain type with a method and a (fully accessor-equipped) property. -/
def c8T : PyClass :=
  .mk "T8" [] [("m", .func sigM false false), ("p", propFull)]

/-- Interface whose only member is a default-tagged opaque value. -/
def c9Iface : PyClass :=
  Interface_new "I9" [objectC] [("baz", default (.value 5 false))]

/-- Candidate declaring `c9Iface` as parent and shadowing the default value
member with a different value. -/
def c9C : PyClass := Interface_new "C9" [c9Iface] [("baz", .value 7 false)]

/-- Candidate whose signature set extends `c9C`'s with an extra member but
which does not declare `c9Iface` as a parent. -/
def c9D : PyClass :=
  .mk "D9" [] [("baz", .value 7 false), ("extra", .value 9 false)]

/-- Interface with a single required member `foo` and no custom `__init__`. -/
def c10Iface : PyClass :=
  Interface_new "I10" [objectC] [("foo", .func sigFooI false false)]

/-- Concrete subclass of `c10Iface` overriding `foo` identically, with no
`__init__` of its own. -/
def c10Sub : PyClass :=
  Interface_new "S10" [c10Iface] [("foo", .func sigFooI false false)]

/-! The repository's own test suite (`src/tests/tests.py`), embedded: the
theorems below reproducing its assertions validate the embedding. -/

/-- Signature `foo (self, a : int) -> TestInterface` (direct type reference). -/
def sigFooT : FuncSig := ⟨[selfP, aIntP], some "TestInterface"⟩

/-- Signature `bar (self, a : int) -> Self`. -/
def sigBarT : FuncSig := ⟨[selfP, aIntP], some "Self"⟩

/-- Signature `foo (self, a : int) -> TestB`: the widened return of `TestB.foo`. -/
def sigFooB : FuncSig := ⟨[selfP, aIntP], some "TestB"⟩

/-- Test class `TestInterface`: required `foo` and `bar`, default `baz`. -/
def testInterface : PyClass :=
  Interface_new "TestInterface" [objectC]
    [("foo", .func sigFooT false false),
     ("bar", .func sigBarT false false),
     ("baz", default (.func sigBarT false false))]

/-- Test class `TestA`: declares the interface, overrides `foo` and `bar` identically. -/
def testA : PyClass :=
  Interface_new "TestA" [testInterface]
    [("foo", .func sigFooT false false),
     ("bar", .func sigBarT false false)]

/-- Test class `TestB`: declares the interface but widens `foo`'s return annotation. -/
def testB : PyClass :=
  Interface_new "TestB" [testInterface]
    [("foo", .func sigFooB false false),
     ("bar", .func sigBarT false false)]

/-- Test class `TestE`: no declared parent, defines all three members identically. -/
def testE : PyClass :=
  .mk "TestE" []
    [("foo", .func sigFooT false false),
     ("bar", .func sigBarT false false),
     ("baz", .func sigBarT false false)]

/-- The candidate `c7Cand`'s signature viewed as a `ClassSignature` value (used
to instantiate general statements about `implements` at a concrete input). -/
def c7SigCand : ClassSignature :=
  ⟨c7Cand,
   [.func sigFooI false false, .func sigBazI false false],
   [.funcSig sigFooI, .funcSig sigBazI], []⟩

/-- The interface `c7Iface`'s signature viewed as a `ClassSignature` value. -/
def c7SigIface : ClassSignature :=
  ⟨c7Iface,
   [default (.func sigBazI false false), .func sigFooI false false],
   [.funcSig sigBazI, .funcSig sigFooI],
   [default (.func sigBazI false false)]⟩

/-- A candidate extending `c9C`'s member set while keeping the same declared
bases (it still lists `c9Iface` as its immediate parent). -/
def c9Cext : PyClass :=
  Interface_new "C9b" [c9Iface]
    [("baz", .value 7 false), ("extra", .value 9 false)]

/-- Signature of `c9C` as a `ClassSignature` value. -/
def c9SigC : ClassSignature := ⟨c9C, [.value 7 false], [.value 7], []⟩

/-- Signature of `c9Cext` as a `ClassSignature` value. -/
def c9SigCext : ClassSignature :=
  ⟨c9Cext, [.value 7 false, .value 9 false], [.value 7, .value 9], []⟩

/-- Signature of `c9Iface` as a `ClassSignature` value. -/
def c9SigIface : ClassSignature :=
  ⟨c9Iface, [.value 5 true], [.value 5], [.value 5 true]⟩

/-! Helper lemmas about dict lookup, shared by several developments below. -/

theorem lookup_some_any {l : List (String × Member)} {k : String} {v : Member}
    (h : List.lookup k l = some v) :
    l.any (fun p => p.1 == k) = true := by
  induction l with
  | nil => simp [List.lookup] at h
  | cons p t ih =>
    obtain ⟨k1, v1⟩ := p
    by_cases hk : k = k1
    · subst hk
      simp
    · have hne : (k == k1) = false := by
        rw [beq_eq_false_iff_ne]
        exact hk
      simp only [List.lookup, hne] at h
      have hne2 : (k1 == k) = false := by
        rw [beq_eq_false_iff_ne]
        exact fun e => hk e.symm
      simp [List.any_cons, hne2, ih h]

theorem lookup_none_any {l : List (String × Member)} {k : String}
    (h : List.lookup k l = none) :
    l.any (fun p => p.1 == k) = false := by
  induction l with
  | nil => simp
  | cons p t ih =>
    obtain ⟨k1, v1⟩ := p
    by_cases hk : k = k1
    · subst hk
      simp [List.lookup] at h
    · have hne : (k == k1) = false := by
        rw [beq_eq_false_iff_ne]
        exact hk
      simp only [List.lookup, hne] at h
      have hne2 : (k1 == k) = false := by
        rw [beq_eq_false_iff_ne]
        exact fun e => hk e.symm
      simp [List.any_cons, hne2, ih h]

theorem lookup_append_none {l1 l2 : List (String × Member)} {k : String}
    (h : List.lookup k l1 = none) :
    List.lookup k (l1 ++ l2) = List.lookup k l2 := by
  induction l1 with
  | nil => simp
  | cons p t ih =>
    obtain ⟨k1, v1⟩ := p
    by_cases hk : k = k1
    · subst hk
      simp [List.lookup] at h
    · have hne : (k == k1) = false := by
        rw [beq_eq_false_iff_ne]
        exact hk
      simp only [List.lookup, hne] at h
      rw [List.cons_append]
      simp only [List.lookup, hne]
      exact ih h

/-! Theorems mirroring the repository's own test suite (`src/tests/tests.py`);
they validate the embedding against the behaviour the tests assert. -/

theorem tests_testA_conforms : subclasscheck testInterface testA = .ok true := rfl

theorem tests_testB_fails : subclasscheck testInterface testB = .ok false := rfl

theorem tests_testE_conforms : subclasscheck testInterface testE = .ok true := rfl

theorem tests_interface_not_instantiable :
    construct testInterface = .error .typeError := rfl

/-! Claim theorems. -/

/-- Claim C1 (code evaluated at the failing input): the candidate `c1Cand`
declares `c1Iface` as its immediate parent, its signature list contains the
descriptor of the one non-default member `foo`, and only the default-tagged
member `baz` is overridden with a different signature — yet `implements`
returns `false`, because the exemption test `isig not in
interface.default_attrs` compares an `inspect.Signature` against raw function
objects and therefore never succeeds for function members. The claim (and the
source's own docstring, which promises `True` whenever all non-default
signatures are present) says this check returns `true`. -/
theorem c1_default_member_not_exempted :
    implementsCheck c1Cand c1Iface = .ok false
    ∧ signaturesOf c1Cand = .ok [.funcSig sigBazAlt, .funcSig sigFooI]
    ∧ signaturesOf c1Iface = .ok [.funcSig sigBazI, .funcSig sigFooI] :=
  ⟨rfl, rfl, rfl⟩

/-- Claim C2 (counterexample): `c2T` has the single member named `b`; `c2S`
has no member named `b` at all, only a member named `a` with an equal
descriptor — yet `contains` returns `true`, so a descriptor present under a
different member name does count as a match, contrary to the claim. -/
theorem c2_contains_ignores_names_counterexample :
    containsCheck c2S c2T = .ok true
    ∧ dirList c2S = ["a"]
    ∧ dirList c2T = ["b"] :=
  ⟨rfl, rfl, rfl⟩

/-- Claim C2 (amended): `contains` is true iff every descriptor in the other
signature's list occurs somewhere in this signature's list; member names play
no role, because `ClassSignature` stores bare descriptors. -/
theorem c2_contains_descriptor_membership (s t : ClassSignature) :
    s.contains t = true ↔ ∀ d ∈ t.signatures, d ∈ s.signatures := by
  simp [ClassSignature.contains, List.all_eq_true, decide_eq_true_eq]

/-- Claim C3 (counterexample): the interface `c3Iface` declares two parents;
the candidate `c3Cand` satisfies the full containment rule (its signature list
contains every interface descriptor), yet `__subclasscheck__` does not return
`true` — it raises `AttributeError`, because the multi-base branch evaluates
`super(cls).__subclasscheck__` on an unbound super object. -/
theorem c3_multibase_counterexample :
    subclasscheck c3Iface c3Cand = .error .attributeError
    ∧ containsCheck c3Cand c3Iface = .ok true :=
  ⟨rfl, rfl⟩

/-- Claim C3 (amended): whenever the interface's `__bases__` does not have
exactly one element, the subclass check raises `AttributeError` for every
candidate — the structural containment rule is never consulted on this path. -/
theorem c3_multibase_raises (cls sub : PyClass)
    (h : cls.basesL.length ≠ 1) :
    subclasscheck cls sub = .error .attributeError := by
  simp [subclasscheck, h]

/-- Witness for `c3_multibase_raises` at the two-parent interface `c3Iface`. -/
theorem c3_multibase_raises_witness :
    c3Iface.basesL.length ≠ 1
    ∧ subclasscheck c3Iface objectC = .error .attributeError :=
  ⟨by decide, c3_multibase_raises c3Iface objectC (by decide)⟩

/-- Claim C4 (counterexample): the interface `c4Iface` defines its own
`__init__` in its class body, and direct construction succeeds — refuting the
claim that construction fails in all cases. -/
theorem c4_custom_init_constructs : construct c4Iface = .ok () := rfl

/-- Claim C4 (amended): an interface-tagged type whose class body supplies its
own (non-raising) `__init__` is constructed through it successfully; the
raising initializer is injected, and construction denied, only when the class
body lacks `__init__`. -/
theorem c4_custom_init_ok (name : String) (bs : List PyClass)
    (dct : List (String × Member)) (sig : FuncSig) (dflt : Bool)
    (h : List.lookup "__init__" dct = some (.func sig dflt false)) :
    construct (Interface_new name bs dct) = .ok () := by
  unfold Interface_new
  rw [if_pos (lookup_some_any h)]
  simp [construct, PyClass.attrLookup, h]

/-- Witness for `c4_custom_init_ok` at a concrete interface declaring its own
initializer. -/
theorem c4_custom_init_ok_witness :
    List.lookup "__init__" [("__init__", Member.func initSig false false)]
      = some (Member.func initSig false false)
    ∧ construct (Interface_new "J4" [objectC]
        [("__init__", Member.func initSig false false)]) = .ok () :=
  ⟨rfl, c4_custom_init_ok "J4" [objectC] _ initSig false rfl⟩

/-- Claim C5 (code evaluated at the failing input): candidate and interface
carry the *identical* property attribute object, so getter, setter and deleter
signatures match component-wise; the two extractions nevertheless produce
unequal descriptors (`PropertySignature` defines no `__eq__`, so comparison is
object identity and each extraction builds a new object), and the conformance
check returns `false` where the claim requires a match. -/
theorem c5_property_descriptors_never_equal :
    c5Cand.attrLookup "p" = c5Iface.attrLookup "p"
    ∧ universal_signature propFull 0 = .ok (.propSig ⟨0, gSig, sSig, dSig⟩, 1)
    ∧ universal_signature propFull 1 = .ok (.propSig ⟨1, gSig, sSig, dSig⟩, 2)
    ∧ Descriptor.propSig ⟨0, gSig, sSig, dSig⟩ ≠ .propSig ⟨1, gSig, sSig, dSig⟩
    ∧ subclasscheck c5Iface c5Cand = .ok false :=
  ⟨rfl, rfl, rfl, by decide, rfl⟩

/-- Claim C6 (counterexample): extracting a property whose setter is missing
raises `TypeError` (`signature(None)`), so extraction does throw and no
placeholder is substituted. -/
theorem c6_missing_setter_raises :
    universal_signature (.prop (some gSig) none (some dSig)) 0
      = .error .typeError := rfl

/-- Claim C6 (amended): extraction succeeds for every function and plain-value
member and for every property with getter, setter and deleter all present; it
raises `TypeError` exactly when the member is a property missing at least one
of its three accessors. -/
theorem c6_extraction_raises_iff_missing_accessor
    (g s d : Option FuncSig) (f : Nat) :
    (universal_signature (.prop g s d) f = .error .typeError
      ↔ (g = none ∨ s = none ∨ d = none))
    ∧ (∀ (sig : FuncSig) (dflt r : Bool),
        universal_signature (.func sig dflt r) f = .ok (.funcSig sig, f))
    ∧ (∀ (v : Nat) (dflt : Bool),
        universal_signature (.value v dflt) f = .ok (.value v, f)) := by
  refine ⟨?_, fun sig dflt r => rfl, fun v dflt => rfl⟩
  cases g <;> cases s <;> cases d <;> simp [universal_signature]

/-- Claim C7 (counterexample): the candidate `c7Cand` does not declare
`c7Iface` as a parent and has no member named `baz` (the interface's
default-tagged member), yet the conformance check returns `true`, because its
member `qux` carries an equal descriptor and names are not compared. The claim
requires `false` here. -/
theorem c7_omitted_default_counterexample :
    subclasscheck c7Iface c7Cand = .ok true
    ∧ dirList c7Cand = ["foo", "qux"] :=
  ⟨rfl, rfl⟩

/-- Claim C7 (amended): for a candidate that does not list the interface among
its immediate bases, conformance holds iff every descriptor of the interface —
default-tagged or not — occurs in the candidate's descriptor list; member
names are not compared, and the default tag grants no exemption on this
branch. -/
theorem c7_nonparent_conformance_iff (s i : ClassSignature)
    (h : s.bases i = false) :
    s.implements i = true ↔ ∀ d ∈ i.signatures, d ∈ s.signatures := by
  simp [ClassSignature.implements, h, ClassSignature.contains,
    List.all_eq_true, decide_eq_true_eq]

/-- Witness for `c7_nonparent_conformance_iff` at the concrete signatures of
`c7Cand` and `c7Iface`. -/
theorem c7_nonparent_conformance_iff_witness :
    c7SigCand.bases c7SigIface = false
    ∧ (c7SigCand.implements c7SigIface = true
        ↔ ∀ d ∈ c7SigIface.signatures, d ∈ c7SigCand.signatures) :=
  ⟨by decide, c7_nonparent_conformance_iff c7SigCand c7SigIface (by decide)⟩

/-- Claim C8 (code evaluated at the failing input): the plain type `c8T` has a
method and a fully accessor-equipped property, is no interface and is freely
constructible, yet the conformance check of `c8T` against itself returns
`false`: each of the two `ClassSignature` constructions wraps the property in
a fresh `PropertySignature`, and those compare by identity. -/
theorem c8_reflexivity_fails_for_property :
    implementsCheck c8T c8T = .ok false := rfl

/-- Claim C9 (counterexample): `c9C` conforms to `c9Iface` (its shadowed
default value member is excused via the opaque-value comparison against
`default_attrs`), and `c9D`'s signature list extends `c9C`'s — yet `c9D`, not
declaring the interface as a parent, does not conform: the claim's
unconditional extension property fails when the extension drops the declared
parent. -/
theorem c9_extension_counterexample :
    implementsCheck c9C c9Iface = .ok true
    ∧ signaturesOf c9C = .ok [.value 7]
    ∧ signaturesOf c9D = .ok [.value 7, .value 9]
    ∧ implementsCheck c9D c9Iface = .ok false :=
  ⟨rfl, rfl, rfl, rfl⟩

/-- Claim C9 (amended): extra members never break conformance for a candidate
that keeps the same immediate declared bases: if one signature's descriptor
list is contained in another's and both classes declare the same bases, every
interface the first implements, the second implements as well. -/
theorem c9_extension_preserves_conformance (s t i : ClassSignature)
    (hb : s.cls.basesL = t.cls.basesL)
    (hsub : ∀ d ∈ s.signatures, d ∈ t.signatures)
    (h : s.implements i = true) :
    t.implements i = true := by
  have hbase : t.bases i = s.bases i := by
    simp [ClassSignature.bases, hb]
  cases hsb : s.bases i with
  | false =>
    rw [ClassSignature.implements, hsb] at h
    rw [ClassSignature.implements, hbase, hsb]
    simp only [Bool.not_false, if_true] at h ⊢
    rw [ClassSignature.contains, List.all_eq_true] at h ⊢
    intro d hd
    have hmem := h d hd
    simp only [decide_eq_true_eq] at hmem ⊢
    exact hsub d hmem
  | true =>
    rw [ClassSignature.implements, hsb] at h
    rw [ClassSignature.implements, hbase, hsb]
    simp only [Bool.not_true] at h ⊢
    rw [if_neg Bool.false_ne_true] at h ⊢
    rw [List.all_eq_true] at h ⊢
    intro d hd
    have h2 := h d hd
    rw [Bool.or_eq_true] at h2 ⊢
    cases h2 with
    | inl h3 =>
      refine Or.inl ?_
      simp only [decide_eq_true_eq] at h3 ⊢
      exact hsub d h3
    | inr h3 => exact Or.inr h3

/-- Witness for `c9_extension_preserves_conformance` at the concrete
signatures of `c9C`, its extension `c9Cext` and the interface `c9Iface`. -/
theorem c9_extension_preserves_conformance_witness :
    c9SigC.cls.basesL = c9SigCext.cls.basesL
    ∧ (∀ d ∈ c9SigC.signatures, d ∈ c9SigCext.signatures)
    ∧ c9SigC.implements c9SigIface = true
    ∧ c9SigCext.implements c9SigIface = true :=
  ⟨rfl, by decide, by decide,
    c9_extension_preserves_conformance c9SigC c9SigCext c9SigIface rfl
      (by decide) (by decide)⟩

/-- Claim C10: every class produced by `Interface.__new__` whose own class
body lacks `__init__` — interfaces and concrete subclasses alike — receives
the raising `default_initializer` in its dict, so direct construction raises
`TypeError`. -/
theorem c10_injected_initializer (name : String) (bs : List PyClass)
    (dct : List (String × Member))
    (h : List.lookup "__init__" dct = none) :
    (Interface_new name bs dct).attrLookup "__init__" = some default_initializer
    ∧ construct (Interface_new name bs dct) = .error .typeError := by
  have hany : dct.any (fun p => p.1 == "__init__") = false := lookup_none_any h
  have hlook :
      (Interface_new name bs dct).attrLookup "__init__"
        = some default_initializer := by
    simp [Interface_new, hany, PyClass.attrLookup, lookup_append_none h]
  exact ⟨hlook, by simp [construct, hlook, default_initializer]⟩

/-- Witness for `c10_injected_initializer` at the concrete conforming subclass
`c10Sub` of the interface `c10Iface`. -/
theorem c10_injected_initializer_witness :
    List.lookup "__init__" [("foo", Member.func sigFooI false false)] = none
    ∧ c10Sub.attrLookup "__init__" = some default_initializer
    ∧ construct c10Sub = .error .typeError
    ∧ subclasscheck c10Iface c10Sub = .ok true := by
  have h := c10_injected_initializer "S10" [c10Iface]
    [("foo", Member.func sigFooI false false)] rfl
  exact ⟨rfl, h.1, h.2, rfl⟩

end Interfaced
